import Mathlib

set_option maxRecDepth 8000

/-!
# Verification of the voice-assistant turn-taking core

Shallow embedding of the two source files of the repository:

* `VOICE_ASSISTANT_OPENAI.py` — the remote (browser + websocket) variant: the
  server pipeline (`transcribe_audio_openai`, `get_openai_response`,
  `text_to_speech`, `process_audio`, `websocket_endpoint`, the shared
  `conversation_state` / `PerformanceMonitor`) together with the browser
  client's voice-activity detection (`monitorAudio` / `checkAudio` in the
  embedded JavaScript).
* `app.py` — the local (microphone + speaker) variant: `audio_callback`,
  `speak_text`, `query_chroma_db`.

Definitions are translated directly from the source; theorems then settle the
claims of the specification against them.
-/

namespace VA

/-! ## Browser client: voice-activity detection (`checkAudio`)

The embedded JavaScript client keeps the flags `isRecording`, `isProcessing`
and the handle `silenceTimeout` of a pending `setTimeout`.  We embed the
timeout handle as the absolute deadline (in milliseconds) at which the
callback fires.  `isProcessing` mirrors the server's `state_update` messages.
Times are in milliseconds, loudness (the byte average computed in
`checkAudio`) is a rational. -/

structure ClientState where
  isRecording : Bool
  isProcessing : Bool
  silenceDeadline : Option Nat
  deriving Repr, DecidableEq

/-- Constant `this.volumeThreshold = 25` of the client. -/
def volumeThreshold : ℚ := 25

/-- Value `this.volumeThreshold / 2`, the silence threshold used in `checkAudio`
(written with `mkRat` so that concrete traces evaluate by `decide`). -/
def volumeThresholdHalf : ℚ := mkRat 25 2

/-- Constant `this.silenceDelay = 2000` (milliseconds) of the client. -/
def silenceDelay : Nat := 2000

/-- Constant `MAX_RECORDING_TIME = 10  # Seconds`, a module-level constant of
`VOICE_ASSISTANT_OPENAI.py`.  It is defined at line 34 and referenced nowhere
else in the source. -/
def MAX_RECORDING_TIME : Nat := 10

/-- Voice-activity events produced by the client. `speechStart` corresponds to
`startRecording(true)` being triggered from `checkAudio`; `speechStop` to
`stopRecording()` being triggered from the silence `setTimeout` callback. -/
inductive VEvent
  | speechStart
  | speechStop
  deriving Repr, DecidableEq

/-- The silence `setTimeout` callback: it runs once wall time reaches the
deadline; it stops the recording if one is active and clears the handle
(`this.silenceTimeout = null`). -/
def fireSilenceTimer (s : ClientState) (t : Nat) : ClientState × List VEvent :=
  match s.silenceDeadline with
  | some d =>
      if d ≤ t then
        if s.isRecording then
          ({ s with isRecording := false, silenceDeadline := none }, [VEvent.speechStop])
        else
          ({ s with silenceDeadline := none }, [])
      else (s, [])
  | none => (s, [])

/-- The body of `checkAudio` on one frame of average loudness `l` observed at
time `t` (the `requestAnimationFrame` callback):

```js
if (average > this.volumeThreshold && !this.isRecording && !this.isProcessing) {
  this.startRecording(true);
} else if (this.isRecording && average < this.volumeThreshold / 2) {
  if (!this.silenceTimeout) { this.silenceTimeout = setTimeout(..., this.silenceDelay); }
} else if (this.isRecording && average > this.volumeThreshold / 2) {
  if (this.silenceTimeout) { clearTimeout(this.silenceTimeout); this.silenceTimeout = null; }
}
```
-/
def checkAudio (s : ClientState) (t : Nat) (l : ℚ) : ClientState × List VEvent :=
  if volumeThreshold < l ∧ s.isRecording = false ∧ s.isProcessing = false then
    ({ s with isRecording := true }, [VEvent.speechStart])
  else if s.isRecording = true ∧ l < volumeThresholdHalf then
    match s.silenceDeadline with
    | none => ({ s with silenceDeadline := some (t + silenceDelay) }, [])
    | some _ => (s, [])
  else if s.isRecording = true ∧ volumeThresholdHalf < l then
    ({ s with silenceDeadline := none }, [])
  else (s, [])

/-- One observation step at time `t`: a due silence timeout fires (its task is
scheduled before the next animation frame), then the frame is examined. -/
def step (s : ClientState) (t : Nat) (l : ℚ) : ClientState × List VEvent :=
  let p := fireSilenceTimer s t
  let q := checkAudio p.1 t l
  (q.1, p.2 ++ q.2)

/-- Run the client over a timed loudness trace, accumulating events. -/
def run (s : ClientState) : List (Nat × ℚ) → ClientState × List VEvent
  | [] => (s, [])
  | (t, l) :: tr =>
      let p := step s t l
      let q := run p.1 tr
      (q.1, p.2 ++ q.2)

/-- The client handler for a `state_update` message
(`this.isProcessing = data.is_processing` in `handleWebSocketMessage`). -/
def handleStateUpdate (s : ClientState) (b : Bool) : ClientState :=
  { s with isProcessing := b }

end VA

/-! ## Python string primitives

Helpers mirroring the Python string operations used by the source
(`startswith`, `strip`, `lower`, the `in` substring test), written over
`String.data` so that concrete instances evaluate by `decide`. -/

/-- The apostrophe character, assembled from its code point so the verbatim
message strings of the source can be reproduced. -/
def apos : String := ⟨[Char.ofNat 39]⟩

/-- Python whitespace as stripped by `str.strip()`. -/
def pyIsSpace (c : Char) : Bool :=
  c == ' ' || c == '\t' || c == '\n' || c == '\r' || c == '\x0b' || c == '\x0c'

/-- Python `s.startswith(p)`. -/
def pyStartswith (s p : String) : Bool :=
  p.data.isPrefixOf s.data

/-- Python `s.strip()`. -/
def pyStrip (s : String) : String :=
  ⟨((s.data.dropWhile pyIsSpace).reverse.dropWhile pyIsSpace).reverse⟩

/-- Python `s.lower()` (ASCII, which covers every string the source tests). -/
def pyLower (s : String) : String :=
  ⟨s.data.map Char.toLower⟩

/-- Containment of `needle` in a character list (Python `needle in hay`). -/
def listContains (needle : List Char) : List Char → Bool
  | [] => needle.isPrefixOf []
  | c :: t => needle.isPrefixOf (c :: t) || listContains needle t

/-- Python `sub in s`. -/
def pyContains (s sub : String) : Bool :=
  listContains sub.data s.data

namespace VA

/-! ## Server pipeline (`VOICE_ASSISTANT_OPENAI.py`)

The three stages and the orchestrator `process_audio`.  External services
(Whisper, the chat model, edge-tts) are suspension points: each stage is
wrapped in `asyncio.wait_for`, so its observable outcome is either a timeout
or a returned string; the embedding takes those outcomes as parameters and
records which stages were actually invoked. -/

/-- The three pipeline stages of `process_audio`. -/
inductive Stage
  | transcribe
  | answer
  | tts
  deriving Repr, DecidableEq

/-- Outcome of one `await asyncio.wait_for(...)` call: the wrapped coroutine
returned a string, or `asyncio.TimeoutError` was raised. -/
inductive StageOutcome
  | timeout
  | value (s : String)
  deriving Repr, DecidableEq

/-- Function `transcribe_audio_openai`, as a function of the decoded audio duration in
milliseconds (`len(audio)` for a pydub segment), whether `OPENAI_API_KEY` is
configured, and the Whisper call outcome (`.error e` embeds the `except`
branch returning `f"[Transcription Error: {str(e)}]"`). -/
def transcribe_audio_openai (durationMs : Nat) (apiKeyConfigured : Bool)
    (whisper : Except String String) : String :=
  if durationMs < 300 then ""
  else if apiKeyConfigured = false then "[ERROR: API key not configured]"
  else
    match whisper with
    | Except.ok t => pyStrip t
    | Except.error e => "[Transcription Error: " ++ e ++ "]"

/-- Function `get_openai_response`, as a function of the user input, API-key
configuration, and the chat-completion outcome. -/
def get_openai_response (user_input : String) (apiKeyConfigured : Bool)
    (llm : Except String String) : String :=
  if pyStrip user_input = "" ∨ pyStartswith user_input "[ERROR" = true then
    "I didn" ++ apos ++ "t catch that. Could you please repeat?"
  else if apiKeyConfigured = false then
    "[ERROR: OpenAI API key not configured. Please set the OPENAI_API_KEY environment variable.]"
  else
    match llm with
    | Except.ok r => pyStrip r
    | Except.error e => "I" ++ apos ++ "m having trouble connecting right now. Error: " ++ e

/-- The text-limiting step of `text_to_speech`: the text actually handed to
`edge_tts.Communicate` (lines 183–184: `if len(text) > 150: text = text[:147] + "..."`). -/
def text_to_speech_text (text : String) : String :=
  if 150 < text.data.length then ⟨text.data.take 147 ++ "...".data⟩ else text

/-- A pipeline outcome: the error dictionary (`{"error": message, ...}`) or
the success dictionary with transcription, response, and base64 audio. -/
inductive PipelineResult
  | failure (message : String)
  | success (transcription response audio_base64 : String)
  deriving Repr, DecidableEq

/-- The fixed message of the empty/error-marked transcript branch of
`process_audio` (line 221). -/
def couldNotUnderstandMsg : String :=
  "Could not understand audio. Please speak clearly and try again."

/-- The fixed message of the `asyncio.TimeoutError` branch of `process_audio`
(line 254). -/
def timeoutMsg : String :=
  "Processing took too long. Please try again."

/-- A run of the pipeline: its result plus the list of stages that were
actually invoked, in order. -/
structure PipelineRun where
  result : PipelineResult
  invoked : List Stage
  deriving Repr, DecidableEq

/-- Function `process_audio`: transcribe, guard the transcript, answer, synthesize,
with each stage's timeout surfacing as the fixed timeout failure. -/
def process_audio (tr : StageOutcome) (answerFn ttsFn : String → StageOutcome) :
    PipelineRun :=
  match tr with
  | StageOutcome.timeout => ⟨PipelineResult.failure timeoutMsg, [Stage.transcribe]⟩
  | StageOutcome.value transcription =>
    if transcription = "" ∨ pyStartswith transcription "[ERROR" = true then
      ⟨PipelineResult.failure couldNotUnderstandMsg, [Stage.transcribe]⟩
    else
      match answerFn transcription with
      | StageOutcome.timeout =>
          ⟨PipelineResult.failure timeoutMsg, [Stage.transcribe, Stage.answer]⟩
      | StageOutcome.value response =>
        match ttsFn response with
        | StageOutcome.timeout =>
            ⟨PipelineResult.failure timeoutMsg, [Stage.transcribe, Stage.answer, Stage.tts]⟩
        | StageOutcome.value audio_b64 =>
            ⟨PipelineResult.success transcription response audio_b64,
             [Stage.transcribe, Stage.answer, Stage.tts]⟩

end VA

namespace VA

/-! ## Websocket endpoint and the shared module-level state

`websocket_endpoint` processes each received message to completion before
awaiting the next one; per `audio_data` message it toggles the shared
`conversation_state["is_processing"]`, sends a `state_update`, runs
`process_audio`, sends the `response`/`error` message, and restores the flag.
The session trace below records these actions as events. -/

/-- Observable server actions of the endpoint loop. -/
inductive SEvent
  | setProcessing (b : Bool)
  | send (sid : Nat) (tag : String)
  | pipelineBegin
  | pipelineEnd
  deriving Repr, DecidableEq

/-- An incoming websocket message: an `audio_data` message (annotated with
the pipeline run its processing produces) or a message of any other type
(which the endpoint ignores). -/
inductive ClientMsg
  | audio_data (r : PipelineRun)
  | other
  deriving Repr, DecidableEq

/-- The tag of the reply message: `"error"` for a failure dictionary,
`"response"` otherwise (lines 287–301). -/
def resultTag : PipelineResult → String
  | PipelineResult.failure _ => "error"
  | PipelineResult.success _ _ _ => "response"

/-- The events produced by one iteration of the `websocket_endpoint` loop for
session `sid`. -/
def handleMsg (sid : Nat) : ClientMsg → List SEvent
  | ClientMsg.audio_data r =>
      [SEvent.setProcessing true, SEvent.send sid "state_update",
       SEvent.pipelineBegin, SEvent.pipelineEnd,
       SEvent.send sid (resultTag r.result),
       SEvent.setProcessing false, SEvent.send sid "state_update"]
  | ClientMsg.other => []

/-- The event trace of one websocket session: messages are received and
handled strictly one after another. -/
def sessionTrace (sid : Nat) : List ClientMsg → List SEvent
  | [] => []
  | m :: ms => handleMsg sid m ++ sessionTrace sid ms

/-- Whether an event is a pipeline start. -/
def isBegin : SEvent → Bool
  | SEvent.pipelineBegin => true
  | _ => false

/-- Whether an event is a pipeline completion. -/
def isEnd : SEvent → Bool
  | SEvent.pipelineEnd => true
  | _ => false

/-- Number of pipeline invocations started in a trace. -/
def beginCount (tr : List SEvent) : Nat := tr.countP isBegin

/-- Number of pipeline invocations finished in a trace. -/
def endCount (tr : List SEvent) : Nat := tr.countP isEnd

/-! The `PerformanceMonitor` class: one module-level instance
(`performance_monitor = PerformanceMonitor()`) shared by every connection.
`start` resets the metrics and the start time; `record` stores the elapsed
time since the last mark and re-marks. -/

/-- Keys of `PerformanceMonitor.metrics`. -/
inductive MetricKey
  | transcription
  | response
  | tts
  deriving Repr, DecidableEq

/-- The state of the module-level `PerformanceMonitor`. -/
structure Monitor where
  start_time : Option Nat
  transcription_time : Nat
  response_time : Nat
  tts_time : Nat
  deriving Repr, DecidableEq

/-- Method `PerformanceMonitor.start`. -/
def Monitor.start (t : Nat) (_m : Monitor) : Monitor :=
  ⟨some t, 0, 0, 0⟩

/-- Method `PerformanceMonitor.record(stage)` at wall time `t`. -/
def Monitor.record (k : MetricKey) (t : Nat) (m : Monitor) : Monitor :=
  match m.start_time with
  | some t0 =>
      match k with
      | MetricKey.transcription => { m with transcription_time := t - t0, start_time := some t }
      | MetricKey.response => { m with response_time := t - t0, start_time := some t }
      | MetricKey.tts => { m with tts_time := t - t0, start_time := some t }
  | none => m

/-- An operation some session performs on the shared monitor. -/
inductive MonOp
  | start
  | record (k : MetricKey)
  deriving Repr, DecidableEq

/-- One step of an interleaved schedule: which session performs which monitor
operation at which wall time.  (The session id does not influence the effect:
the monitor is a single shared object — which is the point.) -/
structure SchedStep where
  sid : Nat
  op : MonOp
  time : Nat
  deriving Repr, DecidableEq

/-- Run an interleaved schedule of monitor operations. -/
def runSchedule : List SchedStep → Monitor → Monitor
  | [], m => m
  | s :: rest, m =>
      runSchedule rest
        (match s.op with
         | MonOp.start => Monitor.start s.time m
         | MonOp.record k => Monitor.record k s.time m)

end VA

namespace App

/-! ## Local variant (`app.py`)

The microphone callback, the playback gate of `speak_text`, and
`query_chroma_db`. -/

/-- One block of raw microphone samples handed to `audio_callback`. -/
structure Frame where
  samples : List Int
  deriving Repr, DecidableEq

/-- Function `audio_callback`: the captured block is enqueued on `q_audio` only while
`listening_active` holds; the block's content is never inspected. -/
def audio_callback (listening_active : Bool) (q : List Frame) (indata : Frame) :
    List Frame :=
  if listening_active then q ++ [indata] else q

/-- Timed events of one `speak_text` call: the gate closing
(`listening_active = False`), playback start and end, and the gate opening
(`listening_active = True`). -/
inductive GateEvent
  | gateClose (t : Nat)
  | playbackStart (t : Nat)
  | playbackEnd (t : Nat)
  | gateOpen (t : Nat)
  deriving Repr, DecidableEq

/-- The event sequence of `speak_text`, entered at time `t0` with synthesis
taking `synthDur` and playback `playDur` milliseconds.  On the success path
the gate closes, audio plays to completion (`play_audio_from_memory` blocks
on `pygame.mixer.music.get_busy()`), then the `finally` block sleeps 500 ms
and reopens the gate.  If synthesis raises (`ttsOk = false`), playback never
starts and the `finally` block still runs. -/
def speak_text (t0 synthDur playDur : Nat) (ttsOk : Bool) : List GateEvent :=
  if ttsOk then
    [GateEvent.gateClose t0,
     GateEvent.playbackStart (t0 + synthDur),
     GateEvent.playbackEnd (t0 + synthDur + playDur),
     GateEvent.gateOpen (t0 + synthDur + playDur + 500)]
  else
    [GateEvent.gateClose t0,
     GateEvent.gateOpen (t0 + synthDur + 500)]

/-- List `garbled_indicators` (line 191). -/
def garbled_indicators : List String :=
  ["murder", "oh i see", "that is", "of and that"]

/-- The fixed reply of `query_chroma_db` to a blank question (line 188). -/
def didNotCatchQMsg : String :=
  "Sorry, I didn" ++ apos ++ "t catch that. Could you please repeat your question?"

/-- The fixed clarification reply for garbled speech (line 195). -/
def clarifyMsg : String :=
  "I" ++ apos ++ "m having trouble understanding. Could you please repeat your question more clearly?"

/-- Function `query_chroma_db`, with the vector collection abstracted as an oracle from
question to answer list.  Returns the answers plus whether `collection.query`
was invoked. -/
def query_chroma_db (question_text : String) (collection : String → List String) :
    List String × Bool :=
  if pyStrip question_text = "" then ([didNotCatchQMsg], false)
  else if garbled_indicators.any (fun ind => pyContains (pyLower question_text) ind) then
    ([clarifyMsg], false)
  else (collection question_text, true)

end App

namespace VA

/-! ## Concrete instances used by witnesses and counterexamples -/

/-- A concrete 151-character input for the truncation witness. -/
def longText : String := ⟨List.replicate 151 'a'⟩

/-- Whether a server event is a reply directed at anyone other than `sid`. -/
def sends_only_to (sid : Nat) (tr : List SEvent) : Bool :=
  tr.all (fun e =>
    match e with
    | SEvent.send s _ => s == sid
    | _ => true)

/-- Sustained loudness 30 every two seconds for twenty seconds. -/
def sustainedLoudTrace : List (Nat × ℚ) :=
  [(0, 30), (2000, 30), (4000, 30), (6000, 30), (8000, 30), (10000, 30),
   (12000, 30), (14000, 30), (16000, 30), (18000, 30), (20000, 30)]

/-- An answer stage whose chat model replies with a fixed sentence. -/
def answerOracle : String → StageOutcome :=
  fun s => StageOutcome.value (get_openai_response s true (Except.ok "BigShip covers 25,000 pin codes."))

/-- A synthesis stage applying the `text_to_speech` text limit. -/
def ttsOracle : String → StageOutcome :=
  fun s => StageOutcome.value (text_to_speech_text s)

/-- An answer stage whose chat model echoes the user input verbatim. -/
def echoAnswerOracle : String → StageOutcome :=
  fun s => StageOutcome.value (get_openai_response s true (Except.ok s))

/-- The transcript produced by the transcribe stage when the Whisper call
raises an exception with message `"boom"`. -/
def errTranscript : String := transcribe_audio_openai 1000 true (Except.error "boom")

/-- The transcript produced by the transcribe stage when the Whisper call
raises an exception with message `"net down"`. -/
def errTranscriptNet : String := transcribe_audio_openai 800 true (Except.error "net down")

end VA

/-! # Theorems -/

namespace VA

theorem volumeThresholdHalf_eq : volumeThresholdHalf = volumeThreshold / 2 := by
  norm_num [volumeThresholdHalf, volumeThreshold]

/-! ## Claim C9: synthesizer text truncation -/

/-- Claim C9 (confirmed): for every input string, `text_to_speech` synthesizes
a text of at most 150 characters — an input longer than 150 characters is
replaced by its first 147 characters followed by `"..."` before synthesis,
and an input of 150 characters or fewer is synthesized unchanged. -/
theorem text_to_speech_truncation (text : String) :
    (text_to_speech_text text).data.length ≤ 150 ∧
    (text.data.length ≤ 150 → text_to_speech_text text = text) ∧
    (150 < text.data.length →
      (text_to_speech_text text).data = text.data.take 147 ++ "...".data) := by
  unfold text_to_speech_text
  by_cases h : 150 < text.data.length
  · rw [if_pos h]
    refine ⟨?_, fun h2 => absurd h (by omega), fun _ => rfl⟩
    have h3 : ("...".data).length = 3 := rfl
    have ht : (text.data.take 147).length = 147 := by
      rw [List.length_take]; omega
    show (text.data.take 147 ++ "...".data).length ≤ 150
    rw [List.length_append, ht, h3]
  · rw [if_neg h]
    exact ⟨by omega, fun _ => rfl, fun h2 => absurd h2 h⟩

/-- Witness for claim C9: the truncation theorem applied to a concrete
151-character string. -/
theorem text_to_speech_truncation_witness :
    (text_to_speech_text longText).data = longText.data.take 147 ++ "...".data :=
  (text_to_speech_truncation longText).2.2 (by decide)

end VA

namespace App

/-! ## Claim C10: garbled-speech bypass (local variant) -/

/-- Claim C10 (confirmed): for every non-blank question whose lower-cased
text contains any of the substrings `"murder"`, `"oh i see"`, `"that is"`,
`"of and that"`, `query_chroma_db` returns the fixed clarification message
without ever querying the vector collection, so such a question can never
receive a knowledge-base answer. -/
theorem garbled_speech_bypass (q : String) (collection : String → List String)
    (hq : ¬ pyStrip q = "")
    (hg : garbled_indicators.any (fun ind => pyContains (pyLower q) ind) = true) :
    query_chroma_db q collection = ([clarifyMsg], false) := by
  unfold query_chroma_db
  rw [if_neg hq, if_pos hg]

/-- Witness for claim C10: a concrete question containing the indicator
`"murder"` receives the clarification message and the collection oracle is
not consulted. -/
theorem garbled_speech_bypass_witness :
    query_chroma_db "What is murder?" (fun _ => ["kb answer"]) = ([clarifyMsg], false) :=
  garbled_speech_bypass "What is murder?" (fun _ => ["kb answer"]) (by decide) (by decide)

/-! ## Claim C2: playback-gate feedback immunity (local variant) -/

/-- Claim C2 (confirmed): whenever the gate is engaged (`listening_active`
is false because assistant audio is being synthesized or played), no
captured frame is enqueued for recognition — for any frame content, hence
for any loudness value, so no speech-start can be derived downstream — and
the gate is cleared only after playback has finished and a trailing
0.5-second guard interval has elapsed: the only gate-open event of a
`speak_text` run with playback carries the timestamp of the playback end
plus 500 ms, and every run begins by closing the gate. -/
theorem playback_gate_feedback_immunity :
    (∀ (q : List Frame) (f : Frame), audio_callback false q f = q) ∧
    (∀ (recognize : List Frame → Option String) (q : List Frame) (f : Frame),
        recognize (audio_callback false q f) = recognize q) ∧
    (∀ (t0 synthDur playDur t : Nat),
        GateEvent.gateOpen t ∈ speak_text t0 synthDur playDur true →
          t = t0 + synthDur + playDur + 500 ∧
          GateEvent.playbackEnd (t0 + synthDur + playDur) ∈ speak_text t0 synthDur playDur true) ∧
    (∀ (t0 synthDur playDur : Nat) (ttsOk : Bool),
        (speak_text t0 synthDur playDur ttsOk).head? = some (GateEvent.gateClose t0)) := by
  refine ⟨fun q f => rfl, fun r q f => rfl, ?_, ?_⟩
  · intro t0 sd pd t ht
    unfold speak_text at ht ⊢
    simp only [if_pos] at ht ⊢
    simp only [List.mem_cons, List.not_mem_nil, or_false] at ht
    rcases ht with h | h | h | h
    · exact absurd h (by simp)
    · exact absurd h (by simp)
    · exact absurd h (by simp)
    · exact ⟨by injection h, by simp⟩
  · intro t0 sd pd ok
    cases ok <;> rfl

/-- Witness for claim C2: the gate-open clause applied at a concrete run
with 100 ms of synthesis and 1000 ms of playback. -/
theorem playback_gate_feedback_immunity_witness :
    1600 = 0 + 100 + 1000 + 500 ∧
      GateEvent.playbackEnd (0 + 100 + 1000) ∈ speak_text 0 100 1000 true :=
  playback_gate_feedback_immunity.2.2.1 0 100 1000 1600 (by decide)

end App

namespace VA

/-! ## Lemmas about the client step function -/

/-- The silence-timeout callback never touches `isProcessing`, never opens a
recording, and never emits `speechStart`. -/
theorem fireSilenceTimer_spec (s : ClientState) (t : Nat) :
    (fireSilenceTimer s t).1.isProcessing = s.isProcessing ∧
    ((fireSilenceTimer s t).1.isRecording = true → s.isRecording = true) ∧
    VEvent.speechStart ∉ (fireSilenceTimer s t).2 := by
  unfold fireSilenceTimer
  rcases s with ⟨rec, proc, dl⟩
  cases dl with
  | none => exact ⟨rfl, fun h => h, by simp⟩
  | some d =>
    by_cases hd : d ≤ t
    · cases rec <;> simp [hd]
    · simp [hd]

/-- While the client is marked processing, `checkAudio` neither opens a
recording nor emits any event. -/
theorem checkAudio_of_processing (s : ClientState) (t : Nat) (l : ℚ)
    (h : s.isProcessing = true) :
    (checkAudio s t l).1.isRecording = s.isRecording ∧ (checkAudio s t l).2 = [] := by
  unfold checkAudio
  have h1 : ¬ (volumeThreshold < l ∧ s.isRecording = false ∧ s.isProcessing = false) := by
    rintro ⟨-, -, hp⟩
    rw [h] at hp
    exact Bool.noConfusion hp
  rw [if_neg h1]
  by_cases h2 : s.isRecording = true ∧ l < volumeThresholdHalf
  · rw [if_pos h2]
    cases hd : s.silenceDeadline <;> simp
  · rw [if_neg h2]
    by_cases h3 : s.isRecording = true ∧ volumeThresholdHalf < l
    · rw [if_pos h3]
      exact ⟨rfl, rfl⟩
    · rw [if_neg h3]
      exact ⟨rfl, rfl⟩

/-- The animation-frame logic of `checkAudio` never emits `speechStop` by
itself: only the silence-timeout callback can. -/
theorem checkAudio_no_stop (s : ClientState) (t : Nat) (l : ℚ) :
    VEvent.speechStop ∉ (checkAudio s t l).2 := by
  unfold checkAudio
  split_ifs with h1 h2 h3
  · simp
  · cases hd : s.silenceDeadline <;> simp
  · simp
  · simp

/-- A `speechStop` from the silence-timeout callback requires a pending
silence deadline that has elapsed. -/
theorem fireSilenceTimer_stop_mem (s : ClientState) (t : Nat)
    (h : VEvent.speechStop ∈ (fireSilenceTimer s t).2) :
    ∃ d, s.silenceDeadline = some d ∧ d ≤ t := by
  rcases s with ⟨rec, proc, dl⟩
  cases dl with
  | none => simp [fireSilenceTimer] at h
  | some d =>
    by_cases hdt : d ≤ t
    · exact ⟨d, rfl, hdt⟩
    · simp [fireSilenceTimer, hdt] at h

/-! ## Claim C1: single-flight -/

/-- In every prefix of a session's event trace, the number of pipeline
invocations started exceeds the number finished by at most one. -/
theorem sessionTrace_prefix_single_flight (sid : Nat) :
    ∀ (msgs : List ClientMsg) (n : Nat),
      beginCount ((sessionTrace sid msgs).take n)
        ≤ endCount ((sessionTrace sid msgs).take n) + 1 := by
  intro msgs
  induction msgs with
  | nil => intro n; simp [sessionTrace, beginCount, endCount]
  | cons m ms ih =>
    intro n
    show beginCount ((handleMsg sid m ++ sessionTrace sid ms).take n)
        ≤ endCount ((handleMsg sid m ++ sessionTrace sid ms).take n) + 1
    rw [List.take_append_eq_append_take]
    unfold beginCount endCount
    rw [List.countP_append, List.countP_append]
    rcases le_or_lt n (handleMsg sid m).length with hn | hn
    · have hz : n - (handleMsg sid m).length = 0 := Nat.sub_eq_zero_of_le hn
      rw [hz]
      simp only [List.take_zero, List.countP_nil]
      have hle : List.countP isBegin ((handleMsg sid m).take n)
          ≤ List.countP isBegin (handleMsg sid m) :=
        (List.take_sublist n (handleMsg sid m)).countP_le isBegin
      have hone : List.countP isBegin (handleMsg sid m) ≤ 1 := by
        cases m <;> simp [handleMsg, isBegin]
      omega
    · have hfull : (handleMsg sid m).take n = handleMsg sid m :=
        List.take_of_length_le (le_of_lt hn)
      rw [hfull]
      have hbal : List.countP isBegin (handleMsg sid m)
          = List.countP isEnd (handleMsg sid m) := by
        cases m <;> simp [handleMsg, isBegin, isEnd]
      have hrest := ih (n - (handleMsg sid m).length)
      unfold beginCount endCount at hrest
      omega

/-- Claim C1, amended (corrected): while the turn state is Processing, a
frame whose loudness exceeds the start threshold opens no new utterance and
starts no new recording; and server-side, messages of a session are handled
strictly one after another, so in every prefix of the session trace at most
one pipeline invocation is unfinished — at most one pipeline invocation is
active per session at any time.  The claim's Speaking clause does not hold
on the code: the server's `finally` block sends
`state_update {is_processing: false}` immediately after the `response`
message, long before the client-side playback started by `playAudio`
finishes, so a loud frame arriving during assistant playback does open a
new utterance — see the counterexample `speechStart_during_playback`.
Single-flight of the pipeline itself survives, because the server handles
each session's messages sequentially. -/
theorem single_flight :
    (∀ (s : ClientState) (t : Nat) (l : ℚ), s.isProcessing = true →
        VEvent.speechStart ∉ (step s t l).2 ∧
        ((step s t l).1.isRecording = true → s.isRecording = true)) ∧
    (∀ (sid : Nat) (msgs : List ClientMsg) (n : Nat),
        beginCount ((sessionTrace sid msgs).take n)
          ≤ endCount ((sessionTrace sid msgs).take n) + 1) := by
  constructor
  · intro s t l hp
    obtain ⟨hfp, hfr, hfs⟩ := fireSilenceTimer_spec s t
    have hcp : (fireSilenceTimer s t).1.isProcessing = true := by rw [hfp]; exact hp
    obtain ⟨hcr, hce⟩ := checkAudio_of_processing (fireSilenceTimer s t).1 t l hcp
    constructor
    · show VEvent.speechStart ∉
        (fireSilenceTimer s t).2 ++ (checkAudio (fireSilenceTimer s t).1 t l).2
      rw [List.mem_append]
      rintro (h | h)
      · exact hfs h
      · rw [hce] at h
        exact absurd h (List.not_mem_nil _)
    · intro hrec
      have hcrec : (checkAudio (fireSilenceTimer s t).1 t l).1.isRecording = true := hrec
      rw [hcr] at hcrec
      exact hfr hcrec
  · exact fun sid msgs n => sessionTrace_prefix_single_flight sid msgs n

/-- Witness for claim C1: a loud frame (loudness 30 > 25) arriving while the
client is marked processing emits no `speechStart`. -/
theorem single_flight_witness :
    VEvent.speechStart ∉ (step ⟨false, true, none⟩ 0 30).2 :=
  (single_flight.1 ⟨false, true, none⟩ 0 30 rfl).1

/-- Counterexample to claim C1 as stated: the remote variant has no Speaking
suppression.  `⟨false, true, none⟩` is the client immediately after the
`response` message — recording stopped, `isProcessing` still true, playback
just started by `playAudio` and still sounding for several seconds.  The
server's `finally` block has already queued `state_update
{is_processing: false}`, so the client applies `handleStateUpdate · false`
moments later, while the audio still plays.  In the resulting state the very
next loud frame (average 30 > 25) emits `speechStart` and opens a new
recording during assistant speech — which the claim's Speaking clause
denies. -/
theorem speechStart_during_playback :
    step (handleStateUpdate ⟨false, true, none⟩ false) 0 30
      = (⟨true, false, none⟩, [VEvent.speechStart]) := by
  decide

/-! ## Claim C3: VAD hysteresis and anti-flapping -/

/-- While a silence deadline `D` is pending, frames below the silence
threshold arriving before `D` keep the recording and the deadline untouched,
and a frame above the silence threshold arriving before `D` cancels the
deadline — with no event emitted anywhere. -/
theorem run_dip_cancel (D : Nat) :
    ∀ (rest : List (Nat × ℚ)),
      (∀ p ∈ rest, p.2 < volumeThresholdHalf ∧ p.1 < D) →
      ∀ (t1 : Nat) (l1 : ℚ), t1 < D → volumeThresholdHalf < l1 →
      run ⟨true, false, some D⟩ (rest ++ [(t1, l1)]) = (⟨true, false, none⟩, []) := by
  intro rest
  induction rest with
  | nil =>
    intro _ t1 l1 ht hl
    have hfire : fireSilenceTimer ⟨true, false, some D⟩ t1 = (⟨true, false, some D⟩, []) := by
      simp [fireSilenceTimer, show ¬ D ≤ t1 from by omega]
    have hcheck : checkAudio ⟨true, false, some D⟩ t1 l1 = (⟨true, false, none⟩, []) := by
      unfold checkAudio
      rw [if_neg (by rintro ⟨-, hc, -⟩; exact Bool.noConfusion hc),
        if_neg (by rintro ⟨-, hc⟩; exact absurd hc (not_lt_of_gt hl)),
        if_pos ⟨rfl, hl⟩]
    simp [run, step, hfire, hcheck]
  | cons p rest ih =>
    intro hall t1 l1 ht hl
    obtain ⟨pt, pl⟩ := p
    obtain ⟨hp2, hp1⟩ := hall (pt, pl) (List.mem_cons_self (pt, pl) rest)
    have hp2l : pl < volumeThresholdHalf := hp2
    have hp1t : pt < D := hp1
    have hfire : fireSilenceTimer ⟨true, false, some D⟩ pt = (⟨true, false, some D⟩, []) := by
      simp [fireSilenceTimer, show ¬ D ≤ pt from by omega]
    have hcheck : checkAudio ⟨true, false, some D⟩ pt pl = (⟨true, false, some D⟩, []) := by
      unfold checkAudio
      rw [if_neg (by rintro ⟨-, hc, -⟩; exact Bool.noConfusion hc), if_pos ⟨rfl, hp2l⟩]
    rw [List.cons_append]
    simp only [run, step, hfire, hcheck, List.nil_append]
    exact ih (fun q hq => hall q (List.mem_cons_of_mem _ hq)) t1 l1 ht hl

/-- Claim C3, amended (corrected): for every loudness sequence observed while
an utterance is open, if loudness drops below the silence threshold
(`volumeThreshold / 2`) for a span shorter than the `silenceDelay`
confirmation delay and then rises back above it, no `speechStop` is emitted
and the utterance remains open; and no `speechStop` is emitted purely from a
single frame without timer confirmation — a `speechStop` requires a silence
deadline set at least `silenceDelay` earlier to have elapsed.  (The original
claim's blanket statement that *no* VAD event is emitted without timer
confirmation is refuted by `vad_single_frame_speechStart`: `speechStart` is
emitted immediately from a single frame above the start threshold.) -/
theorem vad_hysteresis :
    (∀ (tf : Nat) (lf : ℚ) (rest : List (Nat × ℚ)) (t1 : Nat) (l1 : ℚ),
        lf < volumeThresholdHalf →
        (∀ p ∈ rest, p.2 < volumeThresholdHalf ∧ p.1 < tf + silenceDelay) →
        t1 < tf + silenceDelay → volumeThresholdHalf < l1 →
        run ⟨true, false, none⟩ (((tf, lf) :: rest) ++ [(t1, l1)])
          = (⟨true, false, none⟩, [])) ∧
    (∀ (s : ClientState) (t : Nat) (l : ℚ),
        VEvent.speechStop ∈ (step s t l).2 →
        ∃ d, s.silenceDeadline = some d ∧ d ≤ t) := by
  constructor
  · intro tf lf rest t1 l1 hlf hall ht hl
    have hfire : fireSilenceTimer ⟨true, false, none⟩ tf = (⟨true, false, none⟩, []) := rfl
    have hcheck : checkAudio ⟨true, false, none⟩ tf lf
        = (⟨true, false, some (tf + silenceDelay)⟩, []) := by
      unfold checkAudio
      rw [if_neg (by rintro ⟨-, hc, -⟩; exact Bool.noConfusion hc), if_pos ⟨rfl, hlf⟩]
    rw [List.cons_append]
    simp only [run, step, hfire, hcheck, List.nil_append]
    exact run_dip_cancel (tf + silenceDelay) rest hall t1 l1 ht hl
  · intro s t l hmem
    have hstep : (step s t l).2
        = (fireSilenceTimer s t).2 ++ (checkAudio (fireSilenceTimer s t).1 t l).2 := rfl
    rw [hstep, List.mem_append] at hmem
    rcases hmem with h | h
    · exact fireSilenceTimer_stop_mem s t h
    · exact absurd h (checkAudio_no_stop _ t l)

/-- Witness for claim C3: a concrete dip (loudness 5 then 3, both below 12.5,
spanning 1000 ms < 2000 ms) followed by a rise to 20 leaves the utterance
open with no event; and a concrete elapsed deadline is exhibited for the
stop-needs-timer clause. -/
theorem vad_hysteresis_witness :
    run ⟨true, false, none⟩ (((1000, 5) :: [(1500, 3)]) ++ [(2000, 20)])
        = (⟨true, false, none⟩, []) ∧
    ∃ d, (⟨true, false, some 100⟩ : ClientState).silenceDeadline = some d ∧ d ≤ 200 :=
  ⟨vad_hysteresis.1 1000 5 [(1500, 3)] 2000 20 (by decide) (by decide) (by decide) (by decide),
   vad_hysteresis.2 ⟨true, false, some 100⟩ 200 5 (by decide)⟩

/-- Counterexample to claim C3 as stated: a single frame of loudness 30,
observed at time 0 in the listening state with no silence timer pending,
immediately yields a `speechStart` — a VAD event emitted purely from a
single frame without any timer confirmation (the start side of the detector
has no debounce; only the stop side is timer-confirmed). -/
theorem vad_single_frame_speechStart :
    step ⟨false, false, none⟩ 0 30 = (⟨true, false, none⟩, [VEvent.speechStart]) := by
  decide

/-! ## Claim C7: bounded utterance length -/

/-- Claim C7 (code bug): the claim — and `MAX_RECORDING_TIME = 10` together
with its comment — say the transition out of Recording is forced once the
buffered utterance exceeds the maximum utterance length; but the constant is
referenced nowhere, and under sustained loudness the client is still
recording after 20 seconds (twice the bound) with no `speechStop` ever
emitted: nothing bounds the utterance buffer when the VAD never confirms
silence. -/
theorem no_max_recording_enforcement :
    (run ⟨false, false, none⟩ sustainedLoudTrace).1.isRecording = true ∧
    VEvent.speechStop ∉ (run ⟨false, false, none⟩ sustainedLoudTrace).2 ∧
    MAX_RECORDING_TIME * 1000 < 20000 := by
  decide

end VA

namespace VA

/-! ## Claims C4, C5, C6: pipeline error handling -/

/-- Claim C4, amended (corrected): for every utterance whose transcription
stage times out, or returns the empty string or a marker beginning with
`"[ERROR"`, the answer and synthesis stages are never invoked, and the
pipeline immediately yields a failure result carrying a fixed message and
the elapsed time (the message does not name the transcribe stage).  A
transcription failure raised as an exception is marked
`"[Transcription Error: ...]"` instead and is *not* short-circuited — see
the counterexample `transcription_error_marker_reaches_answer`. -/
theorem pipeline_short_circuit :
    (∀ (answerFn ttsFn : String → StageOutcome),
        process_audio StageOutcome.timeout answerFn ttsFn
          = ⟨PipelineResult.failure timeoutMsg, [Stage.transcribe]⟩) ∧
    (∀ (t : String) (answerFn ttsFn : String → StageOutcome),
        t = "" ∨ pyStartswith t "[ERROR" = true →
        process_audio (StageOutcome.value t) answerFn ttsFn
            = ⟨PipelineResult.failure couldNotUnderstandMsg, [Stage.transcribe]⟩ ∧
        Stage.answer ∉ (process_audio (StageOutcome.value t) answerFn ttsFn).invoked ∧
        Stage.tts ∉ (process_audio (StageOutcome.value t) answerFn ttsFn).invoked) := by
  refine ⟨fun af tf => rfl, fun t af tf h => ?_⟩
  have he : process_audio (StageOutcome.value t) af tf
      = ⟨PipelineResult.failure couldNotUnderstandMsg, [Stage.transcribe]⟩ := by
    simp only [process_audio]
    rw [if_pos h]
  exact ⟨he, by rw [he]; simp, by rw [he]; simp⟩

/-- Witness for claim C4: the explicit `"[ERROR: API key not configured]"`
marker short-circuits the pipeline. -/
theorem pipeline_short_circuit_witness :
    process_audio (StageOutcome.value "[ERROR: API key not configured]") answerOracle ttsOracle
      = ⟨PipelineResult.failure couldNotUnderstandMsg, [Stage.transcribe]⟩ :=
  (pipeline_short_circuit.2 "[ERROR: API key not configured]" answerOracle ttsOracle
    (Or.inr (by decide))).1

/-- Counterexample to claim C4 as stated: a transcription-stage failure
(exception in `transcribe_audio_openai`) returns the error marker
`"[Transcription Error: boom]"`, which does not match the `"[ERROR"` guard
of `process_audio`; the answer and synthesis stages *are* invoked on it and
the pipeline yields a success result, not a failure identifying the
transcribe stage. -/
theorem transcription_error_marker_reaches_answer :
    errTranscript = "[Transcription Error: boom]" ∧
    Stage.answer ∈ (process_audio (StageOutcome.value errTranscript) answerOracle ttsOracle).invoked ∧
    Stage.tts ∈ (process_audio (StageOutcome.value errTranscript) answerOracle ttsOracle).invoked ∧
    (process_audio (StageOutcome.value errTranscript) answerOracle ttsOracle).result
      = PipelineResult.success "[Transcription Error: boom]"
          "BigShip covers 25,000 pin codes." "BigShip covers 25,000 pin codes." := by
  decide

/-- Claim C5, amended (corrected): for a transcript equal to the empty
string or a marker beginning with `"[ERROR"`, the remote pipeline still
returns a result (it is a total function of the stage outcomes) carrying the
fixed message asking the user to speak again, delivered as an error result
without consulting the answer stage, and the synthesizer is never invoked at
all — hence never with that text; `get_openai_response` holds the
corresponding fixed repeat prompt for such inputs, and in the local variant
a blank transcript yields the fixed repeat prompt without querying the
knowledge base.  A transcript marked `"[Transcription Error: ...]"` is *not*
treated specially — see the counterexample `error_marker_bypasses_fallback`. -/
theorem fallback_path :
    (∀ (answerFn ttsFn : String → StageOutcome),
        (process_audio (StageOutcome.value "") answerFn ttsFn).result
            = PipelineResult.failure couldNotUnderstandMsg ∧
        Stage.tts ∉ (process_audio (StageOutcome.value "") answerFn ttsFn).invoked) ∧
    (∀ (t : String) (answerFn ttsFn : String → StageOutcome),
        pyStartswith t "[ERROR" = true →
        (process_audio (StageOutcome.value t) answerFn ttsFn).result
            = PipelineResult.failure couldNotUnderstandMsg ∧
        Stage.tts ∉ (process_audio (StageOutcome.value t) answerFn ttsFn).invoked) ∧
    (∀ (input : String) (apiKey : Bool) (llm : Except String String),
        pyStrip input = "" ∨ pyStartswith input "[ERROR" = true →
        get_openai_response input apiKey llm
          = "I didn" ++ apos ++ "t catch that. Could you please repeat?") ∧
    (∀ (q : String) (collection : String → List String),
        pyStrip q = "" →
        App.query_chroma_db q collection = ([App.didNotCatchQMsg], false)) := by
  refine ⟨fun af tf => ?_, fun t af tf h => ?_, fun input k llm h => ?_, fun q c h => ?_⟩
  · have he : process_audio (StageOutcome.value "") af tf
        = ⟨PipelineResult.failure couldNotUnderstandMsg, [Stage.transcribe]⟩ := by
      simp [process_audio]
    exact ⟨by rw [he], by rw [he]; simp⟩
  · have he : process_audio (StageOutcome.value t) af tf
        = ⟨PipelineResult.failure couldNotUnderstandMsg, [Stage.transcribe]⟩ := by
      simp only [process_audio]
      rw [if_pos (Or.inr h)]
    exact ⟨by rw [he], by rw [he]; simp⟩
  · unfold get_openai_response
    rw [if_pos h]
  · unfold App.query_chroma_db
    rw [if_pos h]

/-- Witness for claim C5: the fallback clauses applied at the empty
transcript, at a concrete `"[ERROR"`-marked transcript, and at a blank local
question. -/
theorem fallback_path_witness :
    (process_audio (StageOutcome.value "[ERROR: boom]") answerOracle ttsOracle).result
        = PipelineResult.failure couldNotUnderstandMsg ∧
    get_openai_response "" true (Except.ok "hi")
        = "I didn" ++ apos ++ "t catch that. Could you please repeat?" ∧
    App.query_chroma_db "  " (fun _ => ["kb answer"]) = ([App.didNotCatchQMsg], false) :=
  ⟨(fallback_path.2.1 "[ERROR: boom]" answerOracle ttsOracle (by decide)).1,
   fallback_path.2.2.1 "" true (Except.ok "hi") (Or.inl (by decide)),
   fallback_path.2.2.2 "  " (fun _ => ["kb answer"]) (by decide)⟩

/-- Counterexample to claim C5 as stated: the error-marked transcript
`"[Transcription Error: net down]"` does not trigger the fallback — the
pipeline returns a normal success result with no repeat prompt, the
synthesizer is invoked, and when the answer model happens to echo its input
the synthesizer receives the error text verbatim. -/
theorem error_marker_bypasses_fallback :
    errTranscriptNet = "[Transcription Error: net down]" ∧
    Stage.tts ∈ (process_audio (StageOutcome.value errTranscriptNet) answerOracle ttsOracle).invoked ∧
    (process_audio (StageOutcome.value errTranscriptNet) answerOracle ttsOracle).result
      = PipelineResult.success "[Transcription Error: net down]"
          "BigShip covers 25,000 pin codes." "BigShip covers 25,000 pin codes." ∧
    (process_audio (StageOutcome.value errTranscriptNet) echoAnswerOracle ttsOracle).result
      = PipelineResult.success "[Transcription Error: net down]"
          "[Transcription Error: net down]" "[Transcription Error: net down]" := by
  decide

/-- Claim C6, amended (corrected): an utterance shorter than the 300 ms
minimum-duration floor is still handed to the pipeline; its transcribe stage
(which hosts the duration guard) returns the empty string, the answer and
synthesis stages are never invoked, and the pipeline reports the same fixed
generic failure message used for any unintelligible audio — there is no
distinct TooShort outcome. -/
theorem short_utterance_discard :
    ∀ (durationMs : Nat) (apiKeyConfigured : Bool) (whisper : Except String String)
      (answerFn ttsFn : String → StageOutcome),
      durationMs < 300 →
      transcribe_audio_openai durationMs apiKeyConfigured whisper = "" ∧
      process_audio
          (StageOutcome.value (transcribe_audio_openai durationMs apiKeyConfigured whisper))
          answerFn ttsFn
        = ⟨PipelineResult.failure couldNotUnderstandMsg, [Stage.transcribe]⟩ := by
  intro d k w af tf hd
  have ht : transcribe_audio_openai d k w = "" := by
    unfold transcribe_audio_openai
    rw [if_pos hd]
  refine ⟨ht, ?_⟩
  rw [ht]
  simp [process_audio]

/-- Witness for claim C6: a 200 ms utterance. -/
theorem short_utterance_discard_witness :
    transcribe_audio_openai 200 true (Except.ok "hello there") = "" ∧
    process_audio (StageOutcome.value (transcribe_audio_openai 200 true (Except.ok "hello there")))
        answerOracle ttsOracle
      = ⟨PipelineResult.failure couldNotUnderstandMsg, [Stage.transcribe]⟩ :=
  short_utterance_discard 200 true (Except.ok "hello there") answerOracle ttsOracle (by decide)

/-- Counterexample to claim C6 as stated: a 200 ms utterance *does* reach the
pipeline orchestrator — `websocket_endpoint` calls `process_audio`
unconditionally and the duration guard sits inside the transcribe stage, so
the stage runs on it — and the outcome is byte-identical to a genuine
pipeline failure (here, the API-key error marker): it is reported as the
generic pipeline failure, with no TooShort outcome anywhere in the code. -/
theorem short_utterance_reaches_pipeline :
    (process_audio (StageOutcome.value (transcribe_audio_openai 200 true (Except.ok "hi")))
        answerOracle ttsOracle).invoked = [Stage.transcribe] ∧
    (process_audio (StageOutcome.value (transcribe_audio_openai 200 true (Except.ok "hi")))
        answerOracle ttsOracle).result = PipelineResult.failure couldNotUnderstandMsg ∧
    (process_audio (StageOutcome.value "[ERROR: API key missing]") answerOracle ttsOracle).result
      = PipelineResult.failure couldNotUnderstandMsg := by
  decide

/-! ## Claim C8: session isolation (remote variant) -/

/-- Claim C8, amended (corrected): within one connection, `websocket_endpoint`
handles messages strictly in sequence and addresses every reply it produces to
that connection's own websocket; but the turn flags and metrics are *not*
per-session — `conversation_state` and `performance_monitor` are module-level
objects shared by all connections, so concurrent processing of another
session's audio can alter the metrics a session reports (see
`monitor_cross_session_interference`). -/
theorem session_replies_targeted :
    ∀ (sid : Nat) (msgs : List ClientMsg),
      sends_only_to sid (sessionTrace sid msgs) = true := by
  intro sid msgs
  induction msgs with
  | nil => rfl
  | cons m ms ih =>
    show sends_only_to sid (handleMsg sid m ++ sessionTrace sid ms) = true
    unfold sends_only_to at ih ⊢
    rw [List.all_append]
    refine (Bool.and_eq_true _ _).mpr ⟨?_, ih⟩
    cases m <;> simp [handleMsg]

/-- Counterexample to claim C8 as stated: the module-level
`performance_monitor` is shared across connections, and a schedule the
single-threaded `asyncio` loop really permits changes one session's reported
metrics.  The schedule respects the await structure of the source:
`transcribe_audio_openai` and `get_openai_response` contain no `await`, so
each session's `start()`/`record(...)` calls of those stages run as
contiguous blocks; the only suspension points used are real ones.  Session 1
runs transcribe (`start()` at 0, `record("transcription_time")` at 3) and
answer (`record("response_time")` at 5) and then suspends inside
`text_to_speech`'s `async for chunk in communicate.stream()`.  While it
streams, the loop runs session 2's handler, whose await-free transcribe
block executes (`start()` at 6 — zeroing the shared metrics and resetting
the mark — then `record("transcription_time")` at 8); session 2 then
suspends at its own `await asyncio.wait_for(get_openai_response(...))`.
Session 1's stream completes and `record("tts_time")` at 9 measures against
session 2's mark; `process_audio` then reads `get_metrics()` with no
intervening await.  Session 1's result thus reports transcription 2,
response 0, tts 1 instead of the 3, 2, 4 of the run without session 2:
processing one session's audio alters the observable results of the other,
refuting two-run noninterference. -/
theorem monitor_cross_session_interference :
    runSchedule [⟨1, MonOp.start, 0⟩, ⟨1, MonOp.record MetricKey.transcription, 3⟩,
        ⟨1, MonOp.record MetricKey.response, 5⟩, ⟨1, MonOp.record MetricKey.tts, 9⟩]
        ⟨none, 0, 0, 0⟩
      = ⟨some 9, 3, 2, 4⟩ ∧
    runSchedule [⟨1, MonOp.start, 0⟩, ⟨1, MonOp.record MetricKey.transcription, 3⟩,
        ⟨1, MonOp.record MetricKey.response, 5⟩, ⟨2, MonOp.start, 6⟩,
        ⟨2, MonOp.record MetricKey.transcription, 8⟩, ⟨1, MonOp.record MetricKey.tts, 9⟩]
        ⟨none, 0, 0, 0⟩
      = ⟨some 9, 2, 0, 1⟩ := by
  decide

end VA
